import Mathlib

/-!
Verification of the SAC analytics ETL/KPI pipeline
(`etl/transform.py`, `etl/validate.py`, `kpis/kpi_calculator.py`)
against its natural-language specification.

Dataframes are shallowly embedded as Lean lists of rows. A pandas cell is
modelled by `Cell`: `null` stands for a missing value / NaN, `num q` for a
numeric value (rationals stand in for Python floats; none of the verified
properties depends on rounding of binary floats), and `str s` for a string
cell. `pd.to_numeric(..., errors="coerce")` becomes `Cell.toNumeric`,
which maps anything non-numeric to `none`.
-/

/-- A pandas cell: missing (NaN), numeric, or string. -/
inductive Cell where
  | null : Cell
  | num  : ℚ → Cell
  | str  : String → Cell
deriving DecidableEq, Repr

namespace Cell

/-- Embedding of `pd.to_numeric(x, errors="coerce")` on one cell: numeric cells pass
through, everything else (missing values, non-numeric strings) coerces to
missing. -/
def toNumeric : Cell → Option ℚ
  | num q => some q
  | _ => none

/-- Embedding of `isnull` on one cell. -/
def isNull : Cell → Bool
  | null => true
  | _ => false

/-- Comparison `cell < bound` with pandas NaN semantics: a missing value
satisfies no comparison. -/
def lt (c : Cell) (bound : ℚ) : Bool :=
  match c with
  | num q => decide (q < bound)
  | _ => false

/-- Comparison `cell > bound` with pandas NaN semantics: a missing value
satisfies no comparison. -/
def gt (c : Cell) (bound : ℚ) : Bool :=
  match c with
  | num q => decide (q > bound)
  | _ => false

end Cell

/-!
== `rag_status` (kpis/kpi_calculator.py, lines 40–61)

A thresholds dictionary, when non-empty, carries `excellent`, `good` and
`warning` entries, each an operator string and a numeric value; the empty
dictionary is `none`.
-/

/-- One thresholds entry: `{"operator": ..., "value": ...}`. -/
structure ThresholdEntry where
  operator : String
  value : ℚ
deriving DecidableEq, Repr

/-- The `thresholds` dictionary with its three entries. -/
structure Thresholds where
  excellent : ThresholdEntry
  good : ThresholdEntry
  warning : ThresholdEntry
deriving DecidableEq, Repr

/-- The inner `check(op, threshold)` closure of `rag_status`: the five
recognised operators compare `value` against the threshold, any other
operator string yields `False` (`ops.get(op, False)`). -/
def ragCheck (value : ℚ) (op : String) (threshold : ℚ) : Bool :=
  if op = ">=" then decide (value ≥ threshold)
  else if op = "<=" then decide (value ≤ threshold)
  else if op = ">" then decide (value > threshold)
  else if op = "<" then decide (value < threshold)
  else if op = "=" then decide (value = threshold)
  else false

/-- Embedding of `rag_status(value, thresholds, direction)`: `INFO` on an empty
thresholds dict, otherwise `GREEN` on the excellent or good comparison,
`AMBER` on the warning comparison, `RED` otherwise. The `direction`
argument is accepted but never read by the body. -/
def rag_status (value : ℚ) (thresholds : Option Thresholds) (_direction : String) : String :=
  match thresholds with
  | none => "INFO"
  | some t =>
    if ragCheck value t.excellent.operator t.excellent.value then ("GREEN")
    else if ragCheck value t.good.operator t.good.value then ("GREEN")
    else if ragCheck value t.warning.operator t.warning.value then ("AMBER")
    else ("RED")

/-!
Spec-side restatement of the classification, written from the words of the claim
words, to be compared with the code-side `rag_status`.
-/

/-- Modelled from the spec claim: a comparison with operator `>=`, `<=`,
`>`, `<` or `=` is evaluated against the value of the entry; any other operator
string is treated as not satisfied. -/
def specSatisfies (value : ℚ) (e : ThresholdEntry) : Prop :=
  (e.operator = ">=" ∧ value ≥ e.value) ∨
  (e.operator = "<=" ∧ value ≤ e.value) ∨
  (e.operator = ">" ∧ value > e.value) ∨
  (e.operator = "<" ∧ value < e.value) ∨
  (e.operator = "=" ∧ value = e.value)

instance (value : ℚ) (e : ThresholdEntry) : Decidable (specSatisfies value e) := by
  unfold specSatisfies
  infer_instance

/-- Modelled from the spec claim: `GREEN` if the value satisfies the
excellent comparison, else `GREEN` if it satisfies the good comparison,
else `AMBER` if it satisfies the warning comparison, else `RED`; `INFO`
for an empty thresholds dictionary. -/
def specRagStatus (value : ℚ) (thresholds : Option Thresholds) : String :=
  match thresholds with
  | none => "INFO"
  | some t =>
    if specSatisfies value t.excellent then ("GREEN")
    else if specSatisfies value t.good then ("GREEN")
    else if specSatisfies value t.warning then ("AMBER")
    else ("RED")

lemma ragCheck_eq_specSatisfies (value : ℚ) (e : ThresholdEntry) :
    ragCheck value e.operator e.value = decide (specSatisfies value e) := by
  unfold ragCheck specSatisfies
  by_cases h1 : e.operator = ">=" <;> by_cases h2 : e.operator = "<=" <;>
    by_cases h3 : e.operator = ">" <;> by_cases h4 : e.operator = "<" <;>
    by_cases h5 : e.operator = "=" <;>
    simp_all

/-- Claim C2: `rag_status` classifies exactly as the spec describes: for
every value and every thresholds dictionary with its excellent, good and
warning entries, the result is `GREEN` when the excellent or good
comparison is satisfied, else `AMBER` when the warning comparison is,
else `RED`, where only the five operators `>=`, `<=`, `>`, `<`, `=` can
be satisfied; the empty thresholds dictionary yields `INFO`. -/
theorem rag_status_matches_spec (value : ℚ) (thresholds : Option Thresholds)
    (direction : String) :
    rag_status value thresholds direction = specRagStatus value thresholds := by
  unfold rag_status specRagStatus
  cases thresholds with
  | none => rfl
  | some t =>
    simp only [ragCheck_eq_specSatisfies]
    by_cases h1 : specSatisfies value t.excellent <;>
      by_cases h2 : specSatisfies value t.good <;>
      by_cases h3 : specSatisfies value t.warning <;>
      simp [h1, h2, h3]

/-- Claim C9: `rag_status` is insensitive to its direction argument: any two
direction strings produce the same classification. -/
theorem rag_status_direction_irrelevant (value : ℚ)
    (thresholds : Option Thresholds) (d1 d2 : String) :
    rag_status value thresholds d1 = rag_status value thresholds d2 := by
  unfold rag_status
  cases thresholds <;> rfl

/-!
== Validation engine (etl/validate.py)

A table for the validation engine is a list of rows, a row being a map
from column name to cell. The check functions in the source append their
results to a mutable `ValidationReport`; here each returns the list (or
single result) it adds, and a report is the concatenation.
-/

/-- A dataframe row for the validation engine. -/
abbrev Row := String → Cell

/-- A dataframe for the validation engine. -/
abbrev Table := List Row

/-- The column `df[col]` as a list of cells. -/
def colVals (df : Table) (col : String) : List Cell :=
  df.map (fun r => r col)

/-- Embedding of `df[col].isnull().sum()`. -/
def nullCount (df : Table) (col : String) : Nat :=
  ((colVals df col).filter (fun c => c.isNull)).length

/-- Embedding of `df[pk].duplicated().sum()`: `duplicated` marks every occurrence of a
value after its first, so the count is the column length minus the number
of distinct values (NaN counts as a value equal to itself here, as it does
for pandas `duplicated`). -/
def dupCount (xs : List Cell) : Nat :=
  xs.length - xs.dedup.length

/-- Embedding of `ValidationResult` (etl/validate.py, lines 28–36). -/
structure ValidationResult where
  check_name : String
  table : String
  passed : Bool
  message : String
  severity : String
  row_count : Nat
deriving DecidableEq, Repr

/-- Embedding of `check_no_nulls`: one result per column, passing when the column has
no nulls. -/
def check_no_nulls (df : Table) (table : String) (columns : List String) :
    List ValidationResult :=
  columns.map (fun col =>
    let null_count := nullCount df col
    { check_name := "no_nulls." ++ col
      table := table
      passed := null_count == 0
      message := if null_count == 0 then ("OK")
        else toString null_count ++ " null values in column " ++ col
      severity := "ERROR"
      row_count := null_count })

/-- Embedding of `check_no_duplicates`: a single result, passing when the primary-key
column has no duplicated value. -/
def check_no_duplicates (df : Table) (table pk : String) : ValidationResult :=
  let dup_count := dupCount (colVals df pk)
  { check_name := "no_duplicate_pk." ++ pk
    table := table
    passed := dup_count == 0
    message := if dup_count == 0 then ("OK")
      else toString dup_count ++ " duplicate values in PK " ++ pk
    severity := "ERROR"
    row_count := dup_count }

/-- Embedding of `check_fk_integrity`: counts fact values with no match in the
referenced column. -/
def check_fk_integrity (df : Table) (fk_col : String) (ref_df : Table)
    (ref_col : String) (table ref_table : String) : ValidationResult :=
  let orphan_count :=
    ((colVals df fk_col).filter
      (fun c => decide (c ∉ colVals ref_df ref_col))).length
  { check_name := "fk." ++ fk_col ++ " → " ++ ref_table ++ "." ++ ref_col
    table := table
    passed := orphan_count == 0
    message := if orphan_count == 0 then ("OK")
      else toString orphan_count ++ " orphan FK values (no match in "
        ++ ref_table ++ "." ++ ref_col ++ ")"
    severity := "ERROR"
    row_count := orphan_count }

/-- The out-of-range mask of `check_value_range` for one cell: strictly
below `min_val` or strictly above `max_val`, pandas NaN semantics (a
missing value satisfies neither strict comparison). -/
def rangeMask (c : Cell) (min_val max_val : Option ℚ) : Bool :=
  (match min_val with
   | some m => c.lt m
   | none => false) ||
  (match max_val with
   | some m => c.gt m
   | none => false)

/-- Embedding of `mask.sum()` of `check_value_range`. -/
def outOfRangeCount (df : Table) (col : String) (min_val max_val : Option ℚ) : Nat :=
  ((colVals df col).filter (fun c => rangeMask c min_val max_val)).length

/-- Rendering of an optional bound in the range label. -/
def optBoundRepr : Option ℚ → String
  | none => "None"
  | some q => toString q

/-- Embedding of `check_value_range`: a single result, passing when no value falls
outside `[min_val, max_val]`. -/
def check_value_range (df : Table) (table col : String)
    (min_val max_val : Option ℚ) (severity : String) : ValidationResult :=
  let out_of_range := outOfRangeCount df col min_val max_val
  let label := "[" ++ optBoundRepr min_val ++ ", " ++ optBoundRepr max_val ++ "]"
  { check_name := "range." ++ col ++ " in " ++ label
    table := table
    passed := out_of_range == 0
    message := if out_of_range == 0 then ("OK")
      else toString out_of_range ++ " values outside range " ++ label
    severity := severity
    row_count := out_of_range }

/-- Elementwise `series < series` between two cells (pandas: NaN compares
false). -/
def cellLtCell : Cell → Cell → Bool
  | Cell.num a, Cell.num b => decide (a < b)
  | _, _ => false

/-- Embedding of `validate_dim_date` (results in the order the source adds them). -/
def validate_dim_date (df : Table) : List ValidationResult :=
  check_no_nulls df ("dim_date") ["date_key", "full_date", "year", "month_number"]
  ++ [check_no_duplicates df ("dim_date") "date_key"]
  ++ [check_value_range df ("dim_date") "month_number" (some 1) (some 12) "ERROR"]
  ++ [check_value_range df ("dim_date") "day_of_month" (some 1) (some 31) "ERROR"]
  ++ [check_value_range df ("dim_date") "year" (some 2000) (some 2030) "ERROR"]
  ++ [let invalid_q := (colVals df ("quarter")).dedup.filter
        (fun q => decide (q ∉ [Cell.str ("Q1"), Cell.str ("Q2"), Cell.str ("Q3"), Cell.str ("Q4")]))
      { check_name := "valid_quarter_values"
        table := "dim_date"
        passed := invalid_q.length == 0
        message := if invalid_q.length == 0 then ("OK") else ("Invalid quarter values")
        severity := "ERROR"
        row_count := invalid_q.length }]

/-- Embedding of `validate_dim_product`. -/
def validate_dim_product (df : Table) : List ValidationResult :=
  check_no_nulls df ("dim_product")
    ["product_key", "product_id", "product_name", "category", "unit_cost", "list_price"]
  ++ [check_no_duplicates df ("dim_product") "product_key"]
  ++ [check_value_range df ("dim_product") "unit_cost" (some 0) none ("ERROR")]
  ++ [check_value_range df ("dim_product") "list_price" (some 0) none ("ERROR")]
  ++ [let inverted := (df.filter
        (fun r => cellLtCell (r ("list_price")) (r ("unit_cost")))).length
      { check_name := "list_price >= unit_cost"
        table := "dim_product"
        passed := inverted == 0
        message := if inverted == 0 then ("OK")
          else toString inverted ++ " products where list_price < unit_cost"
        severity := "WARNING"
        row_count := inverted }]

/-- Embedding of `validate_dim_customer`. -/
def validate_dim_customer (df : Table) : List ValidationResult :=
  check_no_nulls df ("dim_customer")
    ["customer_key", "customer_id", "customer_name", "segment"]
  ++ [check_no_duplicates df ("dim_customer") "customer_key"]
  ++ [let invalid_segs := (df.filter (fun r => decide (r ("segment") ∉
        [Cell.str ("Enterprise"), Cell.str ("Mid-Market"), Cell.str ("SMB"), Cell.str ("Startup")]))).length
      { check_name := "valid_segment_values"
        table := "dim_customer"
        passed := invalid_segs == 0
        message := if invalid_segs == 0 then ("OK")
          else toString invalid_segs ++ " rows with invalid segment values"
        severity := "WARNING"
        row_count := invalid_segs }]

/-- Embedding of `validate_dim_employee`. -/
def validate_dim_employee (df : Table) : List ValidationResult :=
  check_no_nulls df ("dim_employee")
    ["employee_key", "employee_id", "full_name", "department"]
  ++ [check_no_duplicates df ("dim_employee") "employee_key"]

/-- Embedding of `validate_dim_region`. -/
def validate_dim_region (df : Table) : List ValidationResult :=
  check_no_nulls df ("dim_region")
    ["region_key", "country", "region", "city", "currency"]
  ++ [check_no_duplicates df ("dim_region") "region_key"]

/-- Embedding of `validate_fact_sales`. -/
def validate_fact_sales (df dim_date dim_product dim_customer dim_employee dim_region : Table) :
    List ValidationResult :=
  check_no_nulls df ("fact_sales")
    ["sales_key", "order_id", "date_key", "product_key",
     "customer_key", "region_key", "employee_key",
     "quantity", "unit_price", "sales_amount", "cogs"]
  ++ [check_no_duplicates df ("fact_sales") "sales_key"]
  ++ [check_fk_integrity df ("date_key") dim_date ("date_key") "fact_sales" "dim_date"]
  ++ [check_fk_integrity df ("product_key") dim_product ("product_key") "fact_sales" "dim_product"]
  ++ [check_fk_integrity df ("customer_key") dim_customer ("customer_key") "fact_sales" "dim_customer"]
  ++ [check_fk_integrity df ("employee_key") dim_employee ("employee_key") "fact_sales" "dim_employee"]
  ++ [check_fk_integrity df ("region_key") dim_region ("region_key") "fact_sales" "dim_region"]
  ++ [check_value_range df ("fact_sales") "quantity" (some 1) none ("ERROR")]
  ++ [check_value_range df ("fact_sales") "unit_price" (some (1/100)) none ("ERROR")]
  ++ [check_value_range df ("fact_sales") "discount_pct" (some 0) (some 1) "ERROR"]
  ++ [check_value_range df ("fact_sales") "sales_amount" (some 0) none ("ERROR")]
  ++ [check_value_range df ("fact_sales") "cogs" (some 0) none ("ERROR")]
  ++ [let gm_anomaly := (df.filter
        (fun r => cellLtCell (r ("sales_amount")) (r ("gross_margin")))).length
      { check_name := "gross_margin <= sales_amount"
        table := "fact_sales"
        passed := gm_anomaly == 0
        message := if gm_anomaly == 0 then ("OK")
          else toString gm_anomaly ++ " rows where gross_margin > sales_amount"
        severity := "WARNING"
        row_count := gm_anomaly }]
  ++ [let invalid_status := (df.filter (fun r => decide (r ("order_status") ∉
        [Cell.str ("Open"), Cell.str ("Confirmed"), Cell.str ("Shipped"),
         Cell.str ("Delivered"), Cell.str ("Cancelled")]))).length
      { check_name := "valid_order_status"
        table := "fact_sales"
        passed := invalid_status == 0
        message := if invalid_status == 0 then ("OK")
          else toString invalid_status ++ " rows with invalid order_status"
        severity := "ERROR"
        row_count := invalid_status }]

/-- Embedding of `ValidationReport.errors`: the failed results of ERROR severity. -/
def reportErrors (results : List ValidationResult) : List ValidationResult :=
  results.filter (fun r => !r.passed && r.severity == "ERROR")

/-- Embedding of `ValidationReport.print_summary` return value: `err_cnt == 0` (the
console printing is I/O and carries no information beyond the results). -/
def print_summary (results : List ValidationResult) : Bool :=
  (reportErrors results).length == 0

/-- The full report `run_validation` assembles over the six loaded tables
(the CSV loading itself is I/O outside the embedding; the tables are
parameters here). -/
def runValidationReport (dim_date dim_product dim_customer dim_employee dim_region fact_sales : Table) :
    List ValidationResult :=
  validate_dim_date dim_date
  ++ validate_dim_product dim_product
  ++ validate_dim_customer dim_customer
  ++ validate_dim_employee dim_employee
  ++ validate_dim_region dim_region
  ++ validate_fact_sales fact_sales dim_date dim_product dim_customer dim_employee dim_region

/-- The process exit of `run_validation`: `sys.exit(1)` (modelled as
`some 1`) when `print_summary` returned `False`, normal return (`none`)
otherwise. -/
def runValidationExitCode (dim_date dim_product dim_customer dim_employee dim_region fact_sales : Table) :
    Option Nat :=
  if print_summary (runValidationReport dim_date dim_product dim_customer
      dim_employee dim_region fact_sales) then none
  else some 1

/-!
=== The validation run gate (claim C3)
-/

lemma failsError_iff (r : ValidationResult) :
    (!r.passed && r.severity == "ERROR") = false ↔
      (r.severity = "ERROR" → r.passed = true) := by
  cases h : r.passed <;> simp [h]

lemma print_summary_true_iff (results : List ValidationResult) :
    print_summary results = true ↔
      ∀ r ∈ results, r.severity = "ERROR" → r.passed = true := by
  simp only [print_summary, reportErrors, beq_iff_eq, List.length_eq_zero,
    List.filter_eq_nil_iff, Bool.not_eq_true]
  exact forall_congr' fun r => imp_congr_right fun _ => failsError_iff r

lemma print_summary_append_warning (results : List ValidationResult)
    (w : ValidationResult) (hs : w.severity = "WARNING") (hp : w.passed = false) :
    print_summary (results ++ [w]) = print_summary results := by
  have hw : (!w.passed && w.severity == "ERROR") = false := by
    rw [hp, hs]; decide
  simp [print_summary, reportErrors, List.filter_append, List.filter_singleton, hw]

/-- Claim C3: The validation run succeeds exactly when no ERROR-severity
check failed: `print_summary` returns `True` iff every ERROR-severity
result passed; appending a failed WARNING-severity result never changes
the returned value; and `run_validation` exits with status 1 precisely
when `print_summary` returns `False`. -/
theorem validation_gate_on_errors :
    (∀ results : List ValidationResult,
        print_summary results = true ↔
          ∀ r ∈ results, r.severity = "ERROR" → r.passed = true) ∧
    (∀ (results : List ValidationResult) (w : ValidationResult),
        w.severity = "WARNING" → w.passed = false →
        print_summary (results ++ [w]) = print_summary results) ∧
    (∀ dim_date dim_product dim_customer dim_employee dim_region fact_sales : Table,
        runValidationExitCode dim_date dim_product dim_customer dim_employee
            dim_region fact_sales = some 1 ↔
          print_summary (runValidationReport dim_date dim_product dim_customer
            dim_employee dim_region fact_sales) = false) := by
  refine ⟨print_summary_true_iff, print_summary_append_warning, ?_⟩
  intro dd dp dc de dr fs
  unfold runValidationExitCode
  cases h : print_summary (runValidationReport dd dp dc de dr fs) <;> simp [h]

/-- Witness for C3: a failed WARNING result appended to the empty report
leaves `print_summary` unchanged. -/
theorem validation_gate_on_errors_witness :
    print_summary ([] ++ [⟨"c", "t", false, "m", "WARNING", 0⟩]) = print_summary [] :=
  validation_gate_on_errors.2.1 [] ⟨"c", "t", false, "m", "WARNING", 0⟩ rfl rfl

/-!
=== Uniform generic checks (claim C6)
-/

lemma dupCount_eq_zero_iff (xs : List Cell) : dupCount xs = 0 ↔ xs.Nodup := by
  unfold dupCount
  rw [Nat.sub_eq_zero_iff_le]
  constructor
  · intro h
    have hsub := xs.dedup_sublist
    have heq : xs.dedup = xs := hsub.eq_of_length (le_antisymm hsub.length_le h)
    exact List.dedup_eq_self.mp heq
  · intro h
    rw [List.dedup_eq_self.mpr h]

/-- The report `rep` holds a duplicate-primary-key check for table `t` on
key `pk` whose outcome is exactly "no duplicated value in the column". -/
def hasDupCheck (rep : List ValidationResult) (t pk : String) (df : Table) : Prop :=
  ∃ r ∈ rep, r.check_name = "no_duplicate_pk." ++ pk ∧ r.table = t ∧
    (r.passed = true ↔ (colVals df pk).Nodup)

/-- The report `rep` holds, for every listed column, a no-nulls check for
table `t` whose outcome is exactly "the column has null count zero". -/
def hasNullChecks (rep : List ValidationResult) (t : String) (cols : List String)
    (df : Table) : Prop :=
  ∀ c ∈ cols, ∃ r ∈ rep, r.check_name = "no_nulls." ++ c ∧ r.table = t ∧
    (r.passed = true ↔ nullCount df c = 0)

lemma hasDupCheck_mono {rep rep2 : List ValidationResult} {t pk : String} {df : Table}
    (h : ∀ r ∈ rep, r ∈ rep2) : hasDupCheck rep t pk df → hasDupCheck rep2 t pk df :=
  fun ⟨r, hr, h1, h2, h3⟩ => ⟨r, h r hr, h1, h2, h3⟩

lemma hasNullChecks_mono {rep rep2 : List ValidationResult} {t : String}
    {cols : List String} {df : Table} (h : ∀ r ∈ rep, r ∈ rep2) :
    hasNullChecks rep t cols df → hasNullChecks rep2 t cols df :=
  fun hn c hc => match hn c hc with
    | ⟨r, hr, h1, h2, h3⟩ => ⟨r, h r hr, h1, h2, h3⟩

lemma check_no_nulls_spec (df : Table) (t : String) (cols : List String) :
    hasNullChecks (check_no_nulls df t cols) t cols df := by
  intro c hc
  refine ⟨_, List.mem_map.mpr ⟨c, hc, rfl⟩, rfl, rfl, ?_⟩
  simp [check_no_nulls]

lemma check_no_duplicates_passed (df : Table) (t pk : String) :
    (check_no_duplicates df t pk).passed = true ↔ (colVals df pk).Nodup := by
  simp only [check_no_duplicates, beq_iff_eq]
  exact dupCount_eq_zero_iff _

lemma validate_dim_date_dup (df : Table) :
    hasDupCheck (validate_dim_date df) "dim_date" "date_key" df := by
  refine ⟨check_no_duplicates df ("dim_date") "date_key", ?_, rfl, rfl,
    check_no_duplicates_passed df _ _⟩
  unfold validate_dim_date
  simp

lemma validate_dim_date_nulls (df : Table) :
    hasNullChecks (validate_dim_date df) "dim_date"
      ["date_key", "full_date", "year", "month_number"] df := by
  refine hasNullChecks_mono ?_ (check_no_nulls_spec df ("dim_date") _)
  intro r hr
  unfold validate_dim_date
  simp only [List.mem_append]
  exact Or.inl (Or.inl (Or.inl (Or.inl (Or.inl hr))))

lemma validate_dim_product_dup (df : Table) :
    hasDupCheck (validate_dim_product df) "dim_product" "product_key" df := by
  refine ⟨check_no_duplicates df ("dim_product") "product_key", ?_, rfl, rfl,
    check_no_duplicates_passed df _ _⟩
  unfold validate_dim_product
  simp

lemma validate_dim_product_nulls (df : Table) :
    hasNullChecks (validate_dim_product df) "dim_product"
      ["product_key", "product_id", "product_name", "category", "unit_cost", "list_price"] df := by
  refine hasNullChecks_mono ?_ (check_no_nulls_spec df ("dim_product") _)
  intro r hr
  unfold validate_dim_product
  simp only [List.mem_append]
  exact Or.inl (Or.inl (Or.inl (Or.inl hr)))

lemma validate_dim_customer_dup (df : Table) :
    hasDupCheck (validate_dim_customer df) "dim_customer" "customer_key" df := by
  refine ⟨check_no_duplicates df ("dim_customer") "customer_key", ?_, rfl, rfl,
    check_no_duplicates_passed df _ _⟩
  unfold validate_dim_customer
  simp

lemma validate_dim_customer_nulls (df : Table) :
    hasNullChecks (validate_dim_customer df) "dim_customer"
      ["customer_key", "customer_id", "customer_name", "segment"] df := by
  refine hasNullChecks_mono ?_ (check_no_nulls_spec df ("dim_customer") _)
  intro r hr
  unfold validate_dim_customer
  simp only [List.mem_append]
  exact Or.inl (Or.inl hr)

lemma validate_dim_employee_dup (df : Table) :
    hasDupCheck (validate_dim_employee df) "dim_employee" "employee_key" df := by
  refine ⟨check_no_duplicates df ("dim_employee") "employee_key", ?_, rfl, rfl,
    check_no_duplicates_passed df _ _⟩
  unfold validate_dim_employee
  simp

lemma validate_dim_employee_nulls (df : Table) :
    hasNullChecks (validate_dim_employee df) "dim_employee"
      ["employee_key", "employee_id", "full_name", "department"] df := by
  refine hasNullChecks_mono ?_ (check_no_nulls_spec df ("dim_employee") _)
  intro r hr
  unfold validate_dim_employee
  simp only [List.mem_append]
  exact Or.inl hr

lemma validate_dim_region_dup (df : Table) :
    hasDupCheck (validate_dim_region df) "dim_region" "region_key" df := by
  refine ⟨check_no_duplicates df ("dim_region") "region_key", ?_, rfl, rfl,
    check_no_duplicates_passed df _ _⟩
  unfold validate_dim_region
  simp

lemma validate_dim_region_nulls (df : Table) :
    hasNullChecks (validate_dim_region df) "dim_region"
      ["region_key", "country", "region", "city", "currency"] df := by
  refine hasNullChecks_mono ?_ (check_no_nulls_spec df ("dim_region") _)
  intro r hr
  unfold validate_dim_region
  simp only [List.mem_append]
  exact Or.inl hr

lemma validate_fact_sales_dup (df dd dp dc de dr : Table) :
    hasDupCheck (validate_fact_sales df dd dp dc de dr) "fact_sales" "sales_key" df := by
  refine ⟨check_no_duplicates df ("fact_sales") "sales_key", ?_, rfl, rfl,
    check_no_duplicates_passed df _ _⟩
  unfold validate_fact_sales
  simp

lemma validate_fact_sales_nulls (df dd dp dc de dr : Table) :
    hasNullChecks (validate_fact_sales df dd dp dc de dr) "fact_sales"
      ["sales_key", "order_id", "date_key", "product_key",
       "customer_key", "region_key", "employee_key",
       "quantity", "unit_price", "sales_amount", "cogs"] df := by
  refine hasNullChecks_mono ?_ (check_no_nulls_spec df ("fact_sales") _)
  intro r hr
  unfold validate_fact_sales
  simp only [List.mem_append]
  exact Or.inl (Or.inl (Or.inl (Or.inl (Or.inl (Or.inl (Or.inl (Or.inl (Or.inl
    (Or.inl (Or.inl (Or.inl (Or.inl hr))))))))))))

/-- Claim C6: The generic data-quality checks are applied uniformly:
`check_no_nulls` adds one result per column, passing iff the column has
zero nulls; `check_no_duplicates` adds one result, passing iff the
primary-key column has no duplicated value; and each of the six tables
receives the duplicate-primary-key check on its key column and one
no-nulls check per listed key column. -/
theorem checks_applied_uniformly :
    (∀ (df : Table) (t : String) (cols : List String),
        (check_no_nulls df t cols).length = cols.length ∧
        hasNullChecks (check_no_nulls df t cols) t cols df) ∧
    (∀ (df : Table) (t pk : String),
        (check_no_duplicates df t pk).passed = true ↔ (colVals df pk).Nodup) ∧
    (∀ df : Table,
        hasDupCheck (validate_dim_date df) "dim_date" "date_key" df ∧
        hasNullChecks (validate_dim_date df) "dim_date"
          ["date_key", "full_date", "year", "month_number"] df) ∧
    (∀ df : Table,
        hasDupCheck (validate_dim_product df) "dim_product" "product_key" df ∧
        hasNullChecks (validate_dim_product df) "dim_product"
          ["product_key", "product_id", "product_name", "category", "unit_cost", "list_price"] df) ∧
    (∀ df : Table,
        hasDupCheck (validate_dim_customer df) "dim_customer" "customer_key" df ∧
        hasNullChecks (validate_dim_customer df) "dim_customer"
          ["customer_key", "customer_id", "customer_name", "segment"] df) ∧
    (∀ df : Table,
        hasDupCheck (validate_dim_employee df) "dim_employee" "employee_key" df ∧
        hasNullChecks (validate_dim_employee df) "dim_employee"
          ["employee_key", "employee_id", "full_name", "department"] df) ∧
    (∀ df : Table,
        hasDupCheck (validate_dim_region df) "dim_region" "region_key" df ∧
        hasNullChecks (validate_dim_region df) "dim_region"
          ["region_key", "country", "region", "city", "currency"] df) ∧
    (∀ df dd dp dc de dr : Table,
        hasDupCheck (validate_fact_sales df dd dp dc de dr) "fact_sales" "sales_key" df ∧
        hasNullChecks (validate_fact_sales df dd dp dc de dr) "fact_sales"
          ["sales_key", "order_id", "date_key", "product_key",
           "customer_key", "region_key", "employee_key",
           "quantity", "unit_price", "sales_amount", "cogs"] df) :=
  ⟨fun df t cols => ⟨List.length_map _ _, check_no_nulls_spec df t cols⟩,
   check_no_duplicates_passed,
   fun df => ⟨validate_dim_date_dup df, validate_dim_date_nulls df⟩,
   fun df => ⟨validate_dim_product_dup df, validate_dim_product_nulls df⟩,
   fun df => ⟨validate_dim_customer_dup df, validate_dim_customer_nulls df⟩,
   fun df => ⟨validate_dim_employee_dup df, validate_dim_employee_nulls df⟩,
   fun df => ⟨validate_dim_region_dup df, validate_dim_region_nulls df⟩,
   fun df dd dp dc de dr =>
     ⟨validate_fact_sales_dup df dd dp dc de dr,
      validate_fact_sales_nulls df dd dp dc de dr⟩⟩

/-- Witness for C6: on the empty `dim_date` table, the no-nulls check on
`date_key` is present with the stated outcome. -/
theorem checks_applied_uniformly_witness :
    ∃ r ∈ validate_dim_date [], r.check_name = "no_nulls." ++ "date_key" ∧
      r.table = "dim_date" ∧ (r.passed = true ↔ nullCount [] "date_key" = 0) :=
  ((checks_applied_uniformly.2.2.1 []).2) "date_key" (by simp)

/-!
=== Null-safe range checks (claim C10)
-/

lemma rangeMask_null (min_val max_val : Option ℚ) :
    rangeMask Cell.null min_val max_val = false := by
  cases min_val <;> cases max_val <;> rfl

/-- Claim C10: `check_value_range` counts a row as out-of-range only when
its value compares strictly below `min_val` or strictly above `max_val`;
a null cell satisfies neither comparison, so null cells are never counted
and a column consisting entirely of nulls passes every range check. -/
theorem check_value_range_ignores_nulls :
    (∀ min_val max_val : Option ℚ, rangeMask Cell.null min_val max_val = false) ∧
    (∀ (df : Table) (col : String) (min_val max_val : Option ℚ),
        outOfRangeCount df col min_val max_val =
          ((colVals df col).filter
            (fun c => !c.isNull && rangeMask c min_val max_val)).length) ∧
    (∀ (df : Table) (t col sev : String) (min_val max_val : Option ℚ),
        (∀ r ∈ df, (r col).isNull = true) →
        (check_value_range df t col min_val max_val sev).passed = true) := by
  refine ⟨rangeMask_null, ?_, ?_⟩
  · intro df col min_val max_val
    unfold outOfRangeCount
    congr 1
    apply List.filter_congr
    intro c _
    cases c <;> cases min_val <;> cases max_val <;>
      simp [rangeMask, Cell.isNull, Cell.lt, Cell.gt]
  · intro df t col sev min_val max_val hnull
    simp only [check_value_range, beq_iff_eq]
    apply List.length_eq_zero.mpr
    apply List.filter_eq_nil_iff.mpr
    intro c hc
    obtain ⟨r, hr, hrc⟩ := List.mem_map.mp hc
    have : c = Cell.null := by
      have h := hnull r hr
      rw [hrc] at h
      cases c <;> simp [Cell.isNull] at h ⊢
    rw [this, rangeMask_null]
    simp

/-- Witness for C10: a `fact_sales` row whose `discount_pct` is null
passes the `[0, 1]` discount range check. -/
theorem check_value_range_ignores_nulls_witness :
    (check_value_range ([fun _ => Cell.null] : Table) "fact_sales" "discount_pct"
      (some 0) (some 1) "ERROR").passed = true :=
  check_value_range_ignores_nulls.2.2 ([fun _ => Cell.null] : Table)
    "fact_sales" "discount_pct" "ERROR" (some 0) (some 1)
    (by intro r hr; rw [List.mem_singleton] at hr; subst hr; rfl)

/-!
== Transform stage (etl/transform.py)

Typed row structures for the tables whose transforms the claims are
about. Columns that a transform only reformats (datetime casts, string
trimming, derived float ratio columns, the `margin_band` label) never
influence which rows are kept, which keys are present, or the
`is_revenue_eligible` flag, and are omitted from the row types; the
columns that do are carried in full.
-/

/-- A raw `dim_product` row: the key and the two price cells that
`transform_dim_product` coerces and filters on. -/
structure ProductRaw where
  product_key : Int
  unit_cost : Cell
  list_price : Cell
deriving DecidableEq, Repr

/-- A transformed `dim_product` row after `pd.to_numeric(..., errors="coerce")`. -/
structure ProductRow where
  product_key : Int
  unit_cost : Option ℚ
  list_price : Option ℚ
deriving DecidableEq, Repr

/-- The numeric casts of `transform_dim_product` on one row. -/
def coerceProduct (r : ProductRaw) : ProductRow :=
  { product_key := r.product_key
    unit_cost := r.unit_cost.toNumeric
    list_price := r.list_price.toNumeric }

/-- Embedding of `transform_dim_product`: cast `unit_cost` and `list_price` to numeric
(coercing failures to missing), then
`dropna(subset=["unit_cost", "list_price"])`. -/
def transform_dim_product (df : List ProductRaw) : List ProductRow :=
  (df.map coerceProduct).filter
    (fun r => r.unit_cost.isSome && r.list_price.isSome)

/-- A raw `fact_sales` row with the columns `transform_fact_sales` reads:
the five foreign keys, order id and status, and the seven numeric measure
cells. -/
structure FactRaw where
  date_key : Int
  product_key : Int
  customer_key : Int
  employee_key : Int
  region_key : Int
  order_id : String
  order_status : String
  quantity : Cell
  unit_price : Cell
  discount_pct : Cell
  sales_amount : Cell
  cogs : Cell
  gross_margin : Cell
  target_amount : Cell
deriving DecidableEq, Repr

/-- A fact row after the numeric casts of `transform_fact_sales`. -/
structure FactNum where
  date_key : Int
  product_key : Int
  customer_key : Int
  employee_key : Int
  region_key : Int
  order_id : String
  order_status : String
  quantity : Option ℚ
  unit_price : Option ℚ
  discount_pct : Option ℚ
  sales_amount : Option ℚ
  cogs : Option ℚ
  gross_margin : Option ℚ
  target_amount : Option ℚ
deriving DecidableEq, Repr

/-- A transformed fact row carrying the derived `is_revenue_eligible`
flag. -/
structure FactRow where
  date_key : Int
  product_key : Int
  customer_key : Int
  employee_key : Int
  region_key : Int
  order_id : String
  order_status : String
  quantity : Option ℚ
  unit_price : Option ℚ
  discount_pct : Option ℚ
  sales_amount : Option ℚ
  cogs : Option ℚ
  gross_margin : Option ℚ
  target_amount : Option ℚ
  is_revenue_eligible : Bool
deriving DecidableEq, Repr

/-- The `pd.to_numeric(..., errors="coerce")` casts of
`transform_fact_sales` over the seven measure columns. -/
def coerceFact (r : FactRaw) : FactNum :=
  { date_key := r.date_key
    product_key := r.product_key
    customer_key := r.customer_key
    employee_key := r.employee_key
    region_key := r.region_key
    order_id := r.order_id
    order_status := r.order_status
    quantity := r.quantity.toNumeric
    unit_price := r.unit_price.toNumeric
    discount_pct := r.discount_pct.toNumeric
    sales_amount := r.sales_amount.toNumeric
    cogs := r.cogs.toNumeric
    gross_margin := r.gross_margin.toNumeric
    target_amount := r.target_amount.toNumeric }

/-- The foreign-key integrity filter: all five keys must appear in the
respective dimension key columns (the only columns of the dimension
tables that `transform_fact_sales` reads). -/
def fkOk (r : FactNum) (dateKeys productKeys customerKeys employeeKeys regionKeys : List Int) :
    Bool :=
  decide (r.date_key ∈ dateKeys) && decide (r.product_key ∈ productKeys) &&
  decide (r.customer_key ∈ customerKeys) && decide (r.employee_key ∈ employeeKeys) &&
  decide (r.region_key ∈ regionKeys)

/-- The derived-flag step
`df["is_revenue_eligible"] = df["order_status"] != "Cancelled"`. -/
def setRevenueFlag (r : FactNum) : FactRow :=
  { date_key := r.date_key
    product_key := r.product_key
    customer_key := r.customer_key
    employee_key := r.employee_key
    region_key := r.region_key
    order_id := r.order_id
    order_status := r.order_status
    quantity := r.quantity
    unit_price := r.unit_price
    discount_pct := r.discount_pct
    sales_amount := r.sales_amount
    cogs := r.cogs
    gross_margin := r.gross_margin
    target_amount := r.target_amount
    is_revenue_eligible := r.order_status != "Cancelled" }

/-- Embedding of `transform_fact_sales` up to (and including) the flag step: numeric
casts, the FK filter, the flag. -/
def factAfterFK (df : List FactRaw)
    (dateKeys productKeys customerKeys employeeKeys regionKeys : List Int) : List FactRow :=
  (((df.map coerceFact).filter
    (fun r => fkOk r dateKeys productKeys customerKeys employeeKeys regionKeys)).map
    setRevenueFlag)

/-- Embedding of `dropna(subset=["sales_amount", "cogs", "quantity"])` on one row. -/
def measuresPresent (r : FactRow) : Bool :=
  r.sales_amount.isSome && r.cogs.isSome && r.quantity.isSome

/-- Embedding of `transform_fact_sales`: casts, FK filter, revenue flag, then the
null-measure drop. -/
def transform_fact_sales (df : List FactRaw)
    (dateKeys productKeys customerKeys employeeKeys regionKeys : List Int) : List FactRow :=
  (factAfterFK df dateKeys productKeys customerKeys employeeKeys regionKeys).filter
    measuresPresent

/-!
=== Referential integrity of the transformed fact table (claim C1)
-/

lemma mem_transform_fact_sales {df : List FactRaw}
    {dateKeys productKeys customerKeys employeeKeys regionKeys : List Int} {r : FactRow}
    (hr : r ∈ transform_fact_sales df dateKeys productKeys customerKeys employeeKeys regionKeys) :
    ∃ s, s ∈ df.map coerceFact ∧
      fkOk s dateKeys productKeys customerKeys employeeKeys regionKeys = true ∧
      setRevenueFlag s = r := by
  obtain ⟨hmem, _⟩ := List.mem_filter.mp hr
  obtain ⟨s, hs, hsr⟩ := List.mem_map.mp hmem
  obtain ⟨hs2, hfk⟩ := List.mem_filter.mp hs
  exact ⟨s, hs2, hfk, hsr⟩

lemma transform_fact_keys_valid {df : List FactRaw}
    {dateKeys productKeys customerKeys employeeKeys regionKeys : List Int} {r : FactRow}
    (hr : r ∈ transform_fact_sales df dateKeys productKeys customerKeys employeeKeys regionKeys) :
    r.date_key ∈ dateKeys ∧ r.product_key ∈ productKeys ∧
    r.customer_key ∈ customerKeys ∧ r.employee_key ∈ employeeKeys ∧
    r.region_key ∈ regionKeys := by
  obtain ⟨s, _, hfk, hsr⟩ := mem_transform_fact_sales hr
  subst hsr
  simpa [fkOk, setRevenueFlag, and_assoc] using hfk

lemma fkOk_eq_true_iff (s : FactNum)
    (dateKeys productKeys customerKeys employeeKeys regionKeys : List Int) :
    fkOk s dateKeys productKeys customerKeys employeeKeys regionKeys = true ↔
      s.date_key ∈ dateKeys ∧ s.product_key ∈ productKeys ∧
      s.customer_key ∈ customerKeys ∧ s.employee_key ∈ employeeKeys ∧
      s.region_key ∈ regionKeys := by
  simp [fkOk, and_assoc]

/-- Claim C1: Every row of `transform_fact_sales` has all five foreign keys
in the respective dimension key columns; the transformed image of an
input row violating any of the five memberships is absent from the
result; and the image of an input row satisfying all five that also
survives the null-measure drop is retained. -/
theorem transform_fact_sales_fk_integrity (df : List FactRaw)
    (dateKeys productKeys customerKeys employeeKeys regionKeys : List Int) :
    (∀ r ∈ transform_fact_sales df dateKeys productKeys customerKeys employeeKeys regionKeys,
        r.date_key ∈ dateKeys ∧ r.product_key ∈ productKeys ∧
        r.customer_key ∈ customerKeys ∧ r.employee_key ∈ employeeKeys ∧
        r.region_key ∈ regionKeys) ∧
    (∀ r ∈ df,
        fkOk (coerceFact r) dateKeys productKeys customerKeys employeeKeys regionKeys = false →
        setRevenueFlag (coerceFact r) ∉
          transform_fact_sales df dateKeys productKeys customerKeys employeeKeys regionKeys) ∧
    (∀ r ∈ df,
        fkOk (coerceFact r) dateKeys productKeys customerKeys employeeKeys regionKeys = true →
        measuresPresent (setRevenueFlag (coerceFact r)) = true →
        setRevenueFlag (coerceFact r) ∈
          transform_fact_sales df dateKeys productKeys customerKeys employeeKeys regionKeys) := by
  refine ⟨?_, ?_, ?_⟩
  · intro r hr
    exact transform_fact_keys_valid hr
  · intro r _ hfk hmem
    have hkeys := transform_fact_keys_valid hmem
    have hfk2 : fkOk (coerceFact r) dateKeys productKeys customerKeys employeeKeys regionKeys = true := by
      apply (fkOk_eq_true_iff _ _ _ _ _ _).mpr
      simpa [setRevenueFlag] using hkeys
    rw [hfk2] at hfk
    exact Bool.noConfusion hfk
  · intro r hr hfk hmeas
    apply List.mem_filter.mpr
    refine ⟨?_, hmeas⟩
    apply List.mem_map.mpr
    refine ⟨coerceFact r, ?_, rfl⟩
    exact List.mem_filter.mpr ⟨List.mem_map.mpr ⟨r, hr, rfl⟩, hfk⟩

/-- A sample raw fact row with valid keys and numeric measures. -/
def sampleFactRaw : FactRaw :=
  { date_key := 1, product_key := 1, customer_key := 1, employee_key := 1,
    region_key := 1, order_id := "ORD-001", order_status := "Delivered",
    quantity := Cell.num 2, unit_price := Cell.num 500,
    discount_pct := Cell.num (1/10), sales_amount := Cell.num 1000,
    cogs := Cell.num 600, gross_margin := Cell.num 400,
    target_amount := Cell.num 950 }

/-- Witness for C1: a raw row whose five keys all resolve and whose
measures are numeric is retained by `transform_fact_sales`. -/
theorem transform_fact_sales_fk_integrity_witness :
    setRevenueFlag (coerceFact sampleFactRaw) ∈
      transform_fact_sales [sampleFactRaw] [1] [1] [1] [1] [1] :=
  (transform_fact_sales_fk_integrity [sampleFactRaw] [1] [1] [1] [1] [1]).2.2
    sampleFactRaw (List.mem_singleton.mpr rfl) (by decide) (by decide)

/-!
=== The transform stage drops exactly the invalid rows (claim C5)
-/

/-- Claim C5: `transform_dim_product` keeps exactly the rows whose
`unit_cost` and `list_price` both coerce to numbers, and
`transform_fact_sales`, after the foreign-key filter, keeps exactly the
rows with `sales_amount`, `cogs` and `quantity` all present. -/
theorem transform_drops_exactly_invalid_rows :
    (∀ (df : List ProductRaw), ∀ r ∈ df,
        (coerceProduct r ∈ transform_dim_product df ↔
          (r.unit_cost.toNumeric).isSome = true ∧
          (r.list_price.toNumeric).isSome = true)) ∧
    (∀ (df : List FactRaw)
        (dateKeys productKeys customerKeys employeeKeys regionKeys : List Int)
        (r : FactRow),
        r ∈ transform_fact_sales df dateKeys productKeys customerKeys employeeKeys regionKeys ↔
          r ∈ factAfterFK df dateKeys productKeys customerKeys employeeKeys regionKeys ∧
          measuresPresent r = true) := by
  constructor
  · intro df r hr
    constructor
    · intro hmem
      have hp := (List.mem_filter.mp hmem).2
      simpa [coerceProduct] using hp
    · intro ⟨h1, h2⟩
      apply List.mem_filter.mpr
      refine ⟨List.mem_map.mpr ⟨r, hr, rfl⟩, ?_⟩
      simp [coerceProduct, h1, h2]
  · intro df dk pk ck ek rk r
    exact List.mem_filter

/-- A sample raw product row with numeric prices. -/
def sampleProductRaw : ProductRaw :=
  { product_key := 1, unit_cost := Cell.num 40, list_price := Cell.num 100 }

/-- Witness for C5: a product row with both prices numeric is kept, and a
transformed fact row is in the result iff it survived the FK filter with
all three measures present. -/
theorem transform_drops_exactly_invalid_rows_witness :
    coerceProduct sampleProductRaw ∈ transform_dim_product [sampleProductRaw] :=
  (transform_drops_exactly_invalid_rows.1 [sampleProductRaw] sampleProductRaw
    (List.mem_singleton.mpr rfl)).mpr ⟨rfl, rfl⟩

/-!
== KPI calculator (kpis/kpi_calculator.py)

`KPICalculator.__init__` loads the processed `fact_sales` and `dim_date`
CSVs and the KPI catalog JSON (I/O outside the embedding; they are
parameters here), restricts to revenue-eligible fact rows, and left-merges
the date columns on `date_key`.
-/

/-- A `dim_date` row with the columns the KPI calculator merges in. -/
structure DateRow where
  date_key : Int
  year : Int
  month_number : Int
  month_name : String
  quarter : String
deriving DecidableEq, Repr

/-- A row of `self.eligible`: a fact row paired with its merged date
columns, `none` when its `date_key` had no match in `dim_date`. -/
abbrev ERow := FactRow × Option DateRow

/-- The merge result rows contributed by one left row: one row per
matching `dim_date` row, or a single row with missing date columns when
none match. -/
def mergeBlock (dim_date : List DateRow) (r : FactRow) : List ERow :=
  match dim_date.filter (fun d => d.date_key == r.date_key) with
  | [] => [(r, none)]
  | ms => ms.map (fun d => (r, some d))

/-- pandas left merge on `date_key`. -/
def mergeDate (fact : List FactRow) (dim_date : List DateRow) : List ERow :=
  fact.flatMap (mergeBlock dim_date)

/-- One KPI definition from the catalog (`kpi_definitions.json`). -/
structure KpiDef where
  id : String
  name : String
  category : String
  unit : String
  formula : String
  thresholds : Option Thresholds
  trend_direction : String
deriving DecidableEq, Repr

/-- The state `KPICalculator.__init__` builds. -/
structure KPICalculator where
  eligible : List ERow
  kpi_defs : List KpiDef

/-- Embedding of `KPICalculator.__init__` on the loaded tables and catalog:
`self.eligible = fact[fact["is_revenue_eligible"] == True]` merged left
with the date columns. -/
def mkKPICalculator (fact : List FactRow) (dim_date : List DateRow)
    (defs : List KpiDef) : KPICalculator :=
  { eligible := mergeDate (fact.filter (fun r => r.is_revenue_eligible == true)) dim_date
    kpi_defs := defs }

/-- pandas `Series.sum()` with its default `skipna=True`: missing values
contribute nothing. -/
def sumO (xs : List (Option ℚ)) : ℚ :=
  (xs.filterMap id).sum

/-- pandas `Series.nunique()` on a non-nullable column. -/
def nunique {α : Type} [DecidableEq α] (xs : List α) : Nat :=
  xs.dedup.length

/-- Stable insertion of one element under a boolean "goes before or with"
relation. -/
def insertLe {α : Type} (le : α → α → Bool) (x : α) : List α → List α
  | [] => [x]
  | y :: ys => if le x y then x :: y :: ys else y :: insertLe le x ys

/-- Stable insertion sort (the sort pandas applies to group keys and to
`sort_values`). -/
def sortLe {α : Type} (le : α → α → Bool) : List α → List α
  | [] => []
  | x :: xs => insertLe le x (sortLe le xs)

/-- Ascending lexicographic order on `(year, month_number)` keys. -/
def lexLe (a b : Int × Int) : Bool :=
  decide (a.1 < b.1) || (a.1 == b.1 && decide (a.2 ≤ b.2))

/-- The eligible sales column. -/
def eligSales (c : KPICalculator) : List (Option ℚ) :=
  c.eligible.map (fun e => e.1.sales_amount)

/-- Embedding of `self.eligible["sales_amount"].sum()`. -/
def eligRevenue (c : KPICalculator) : ℚ :=
  sumO (eligSales c)

/-- Embedding of `self.eligible["order_id"].nunique()`. -/
def eligOrderCount (c : KPICalculator) : Nat :=
  nunique (c.eligible.map (fun e => e.1.order_id))

/-- Embedding of `self.eligible["target_amount"].sum()`. -/
def eligTargetTotal (c : KPICalculator) : ℚ :=
  sumO (c.eligible.map (fun e => e.1.target_amount))

/-- Embedding of `self.eligible["employee_key"].nunique()`. -/
def eligEmployeeCount (c : KPICalculator) : Nat :=
  nunique (c.eligible.map (fun e => e.1.employee_key))

/-- The distinct `(year, month_number)` group keys of the eligible frame;
rows whose left merge found no date (missing group key) are dropped, as
pandas `groupby` drops NaN keys. -/
def monthKeys (c : KPICalculator) : List (Int × Int) :=
  (c.eligible.filterMap (fun e => e.2.map (fun d => (d.year, d.month_number)))).dedup

/-- The eligible sales cells of one `(year, month_number)` group. -/
def groupSales (c : KPICalculator) (k : Int × Int) : List (Option ℚ) :=
  (c.eligible.filter (fun e =>
    match e.2 with
    | some d => (d.year, d.month_number) == k
    | none => false)).map (fun e => e.1.sales_amount)

/-- The monthly revenue series of `kpi_revenue_growth_mom`: group sums in
ascending `(year, month_number)` order. -/
def monthlySeries (c : KPICalculator) : List ℚ :=
  (sortLe lexLe (monthKeys c)).map (fun k => sumO (groupSales c k))

/-- The per-product revenue sums (`groupby("product_key")`, ascending key
order). -/
def productSums (c : KPICalculator) : List ℚ :=
  (sortLe (fun a b : Int => decide (a ≤ b))
    ((c.eligible.map (fun e => e.1.product_key)).dedup)).map
    (fun k => sumO ((c.eligible.filter (fun e => e.1.product_key == k)).map
      (fun e => e.1.sales_amount)))

/-- Embedding of `sort_values(ascending=False)` comparison on revenue values. -/
def ratGe (a b : ℚ) : Bool :=
  decide (b ≤ a)

/-- Embedding of `kpi_total_revenue`. -/
def kpi_total_revenue (c : KPICalculator) : ℚ :=
  eligRevenue c

/-- Embedding of `kpi_gross_margin_pct` with its `total_rev > 0` guard. -/
def kpi_gross_margin_pct (c : KPICalculator) : ℚ :=
  let total_rev := eligRevenue c
  let total_gm := sumO (c.eligible.map (fun e => e.1.gross_margin))
  if total_rev > 0 then total_gm / total_rev * 100 else 0

/-- Embedding of `kpi_revenue_growth_mom`: needs at least two monthly groups and a
positive previous month. -/
def kpi_revenue_growth_mom (c : KPICalculator) : ℚ :=
  match (monthlySeries c).reverse with
  | cur :: prev :: _ => if prev > 0 then (cur - prev) / prev * 100 else 0
  | _ => 0

/-- Embedding of `kpi_avg_order_value` with its `order_count > 0` guard. -/
def kpi_avg_order_value (c : KPICalculator) : ℚ :=
  let total_rev := eligRevenue c
  let order_count := eligOrderCount c
  if order_count > 0 then total_rev / (order_count : ℚ) else 0

/-- Embedding of `kpi_target_attainment` with its `target > 0` guard. -/
def kpi_target_attainment (c : KPICalculator) : ℚ :=
  let actual := eligRevenue c
  let target := eligTargetTotal c
  if target > 0 then actual / target * 100 else 0

/-- Embedding of `kpi_total_orders`. -/
def kpi_total_orders (c : KPICalculator) : ℚ :=
  (eligOrderCount c : ℚ)

/-- Embedding of `kpi_discount_rate`: the mean discount times 100. pandas `mean`
skips missing values; on an empty frame it yields NaN where this rational
division yields 0 — no verified claim touches that value. -/
def kpi_discount_rate (c : KPICalculator) : ℚ :=
  let xs := (c.eligible.map (fun e => e.1.discount_pct)).filterMap id
  (xs.sum / (xs.length : ℚ)) * 100

/-- Embedding of `kpi_revenue_per_employee` with its `emp_count > 0` guard. -/
def kpi_revenue_per_employee (c : KPICalculator) : ℚ :=
  let total_rev := eligRevenue c
  let emp_count := eligEmployeeCount c
  if emp_count > 0 then total_rev / (emp_count : ℚ) else 0

/-- Embedding of `kpi_customer_count`. -/
def kpi_customer_count (c : KPICalculator) : ℚ :=
  (nunique (c.eligible.map (fun e => e.1.customer_key)) : ℚ)

/-- Embedding of `kpi_top10_revenue_share` with its `total_rev > 0` guard: per-product
sums sorted descending, the top ten against the total. -/
def kpi_top10_revenue_share (c : KPICalculator) : ℚ :=
  let by_product := sortLe ratGe (productSums c)
  let total_rev := by_product.sum
  let top10_rev := (by_product.take 10).sum
  if total_rev > 0 then top10_rev / total_rev * 100 else 0

/-- The `KPI_MAP` dispatcher: `dict.get` semantics. -/
def KPI_MAP : String → Option (KPICalculator → ℚ)
  | "KPI-001" => some kpi_total_revenue
  | "KPI-002" => some kpi_gross_margin_pct
  | "KPI-003" => some kpi_revenue_growth_mom
  | "KPI-004" => some kpi_avg_order_value
  | "KPI-005" => some kpi_target_attainment
  | "KPI-006" => some kpi_total_orders
  | "KPI-007" => some kpi_discount_rate
  | "KPI-008" => some kpi_revenue_per_employee
  | "KPI-009" => some kpi_customer_count
  | "KPI-010" => some kpi_top10_revenue_share
  | _ => none

/-- Embedding of `round(value, 4)` (Python rounds the IEEE double; tie behaviour can
differ from exact rational rounding, and no verified claim depends on
ties). -/
def round4 (q : ℚ) : ℚ :=
  ((round (q * 10000) : ℤ) : ℚ) / 10000

/-- One result record of `calculate_all` (the wall-clock `calculated_at`
field is omitted). -/
structure KpiRecord where
  kpi_id : String
  kpi_name : String
  category : String
  value : ℚ
  unit : String
  rag_status : String
  formula : String
deriving DecidableEq, Repr

/-- One iteration of the `calculate_all` loop: `None` when the KPI id is
not in `KPI_MAP` (the definition is silently skipped), otherwise the
result record with the value rounded to four decimals and the RAG status
computed from the unrounded value. -/
def kpiRecordOf (c : KPICalculator) (kpi_def : KpiDef) : Option KpiRecord :=
  match KPI_MAP kpi_def.id with
  | none => none
  | some fn =>
    let value := fn c
    let status := rag_status value (kpi_def.thresholds) (kpi_def.trend_direction)
    some { kpi_id := kpi_def.id
           kpi_name := kpi_def.name
           category := kpi_def.category
           value := round4 value
           unit := kpi_def.unit
           rag_status := status
           formula := kpi_def.formula }

/-- Embedding of `calculate_all`: the loop over the catalog in order. -/
def calculate_all (c : KPICalculator) : List KpiRecord :=
  c.kpi_defs.filterMap (kpiRecordOf c)

/-!
=== Cancelled orders contribute no revenue (claim C4)
-/

lemma mergeBlock_fst {dd : List DateRow} {r : FactRow} {e : ERow}
    (he : e ∈ mergeBlock dd r) : e.1 = r := by
  unfold mergeBlock at he
  cases hf : dd.filter (fun d => d.date_key == r.date_key) with
  | nil =>
    rw [hf] at he
    simp at he
    rw [he]
  | cons d ms =>
    rw [hf] at he
    simp only [List.mem_map] at he
    obtain ⟨x, _, hx⟩ := he
    rw [← hx]

lemma mergeDate_fst_mem {l : List FactRow} {dd : List DateRow} {e : ERow}
    (he : e ∈ mergeDate l dd) : e.1 ∈ l := by
  unfold mergeDate at he
  obtain ⟨r, hr, hbr⟩ := List.mem_flatMap.mp he
  rw [mergeBlock_fst hbr]
  exact hr

lemma filter_date_len_le_one (k : Int) :
    ∀ dd : List DateRow, (dd.map DateRow.date_key).Nodup →
      (dd.filter (fun d => d.date_key == k)).length ≤ 1 := by
  intro dd
  induction dd with
  | nil => intro _; simp
  | cons d tl ih =>
    intro hnd
    rw [List.map_cons, List.nodup_cons] at hnd
    obtain ⟨hnotin, hnd2⟩ := hnd
    by_cases h : d.date_key = k
    · have hnil : tl.filter (fun d2 => d2.date_key == k) = [] := by
        apply List.filter_eq_nil_iff.mpr
        intro x hx
        simp only [beq_iff_eq]
        intro hxk
        exact hnotin (by rw [h, ← hxk]; exact List.mem_map_of_mem _ hx)
      simp [List.filter_cons, h, hnil]
    · simpa [List.filter_cons, h] using ih hnd2

lemma mergeBlock_map_fst (dd : List DateRow) (r : FactRow)
    (hle : (dd.filter (fun d => d.date_key == r.date_key)).length ≤ 1) :
    (mergeBlock dd r).map Prod.fst = [r] := by
  unfold mergeBlock
  cases hf : dd.filter (fun d => d.date_key == r.date_key) with
  | nil => simp
  | cons d ms =>
    cases ms with
    | nil => simp
    | cons d2 ms2 =>
      exfalso
      rw [hf] at hle
      simp [List.length_cons] at hle

lemma mergeDate_map_fst (dd : List DateRow)
    (hnd : (dd.map DateRow.date_key).Nodup) (l : List FactRow) :
    (mergeDate l dd).map Prod.fst = l := by
  induction l with
  | nil => rfl
  | cons r tl ih =>
    simp only [mergeDate, List.flatMap_cons, List.map_append] at ih ⊢
    rw [mergeBlock_map_fst dd r (filter_date_len_le_one r.date_key dd hnd), ih]
    rfl

lemma transform_flag_eq (df : List FactRaw)
    (dateKeys productKeys customerKeys employeeKeys regionKeys : List Int) :
    ∀ r ∈ transform_fact_sales df dateKeys productKeys customerKeys employeeKeys regionKeys,
      r.is_revenue_eligible = (r.order_status != "Cancelled") := by
  intro r hr
  obtain ⟨s, _, _, hsr⟩ := mem_transform_fact_sales hr
  subst hsr
  simp [setRevenueFlag]

lemma mk_eligible_flagged (fact : List FactRow) (dim_date : List DateRow)
    (defs : List KpiDef) :
    ∀ e ∈ (mkKPICalculator fact dim_date defs).eligible,
      e.1.is_revenue_eligible = true ∧ e.1 ∈ fact := by
  intro e he
  simp only [mkKPICalculator] at he
  have hmem := mergeDate_fst_mem he
  obtain ⟨hin, hflag⟩ := List.mem_filter.mp hmem
  exact ⟨by simpa using hflag, hin⟩

lemma kpi_total_revenue_eq (fact : List FactRow) (dim_date : List DateRow)
    (defs : List KpiDef) (hnd : (dim_date.map DateRow.date_key).Nodup) :
    kpi_total_revenue (mkKPICalculator fact dim_date defs) =
      sumO ((fact.filter (fun r => r.is_revenue_eligible == true)).map
        (fun r => r.sales_amount)) := by
  unfold kpi_total_revenue eligRevenue eligSales mkKPICalculator
  rw [show (fun e : ERow => e.1.sales_amount) =
    (fun r : FactRow => r.sales_amount) ∘ Prod.fst from rfl]
  rw [← List.map_map, mergeDate_map_fst dim_date hnd]

lemma kpi_total_revenue_transform (df : List FactRaw)
    (dateKeys productKeys customerKeys employeeKeys regionKeys : List Int)
    (dim_date : List DateRow) (defs : List KpiDef)
    (hnd : (dim_date.map DateRow.date_key).Nodup) :
    kpi_total_revenue (mkKPICalculator
        (transform_fact_sales df dateKeys productKeys customerKeys employeeKeys regionKeys)
        dim_date defs) =
      sumO (((transform_fact_sales df dateKeys productKeys customerKeys employeeKeys regionKeys).filter
        (fun r => r.order_status != "Cancelled")).map (fun r => r.sales_amount)) := by
  rw [kpi_total_revenue_eq _ _ _ hnd]
  refine congrArg (fun l : List FactRow =>
    sumO (l.map (fun r : FactRow => r.sales_amount))) ?_
  apply List.filter_congr
  intro r hr
  rw [transform_flag_eq df dateKeys productKeys customerKeys employeeKeys regionKeys r hr]
  simp

/-- Claim C4: `transform_fact_sales` sets `is_revenue_eligible` exactly for
non-Cancelled rows; the working set of the KPI calculator holds only rows with
the flag true; and (with distinct `dim_date` keys, as the transform of
`dim_date` guarantees) `kpi_total_revenue` is the sum of `sales_amount`
over the non-cancelled fact rows only. -/
theorem revenue_excludes_cancelled :
    (∀ (df : List FactRaw)
        (dateKeys productKeys customerKeys employeeKeys regionKeys : List Int),
      ∀ r ∈ transform_fact_sales df dateKeys productKeys customerKeys employeeKeys regionKeys,
        r.is_revenue_eligible = (r.order_status != "Cancelled")) ∧
    (∀ (fact : List FactRow) (dim_date : List DateRow) (defs : List KpiDef),
      ∀ e ∈ (mkKPICalculator fact dim_date defs).eligible,
        e.1.is_revenue_eligible = true ∧ e.1 ∈ fact) ∧
    (∀ (fact : List FactRow) (dim_date : List DateRow) (defs : List KpiDef),
        (dim_date.map DateRow.date_key).Nodup →
        kpi_total_revenue (mkKPICalculator fact dim_date defs) =
          sumO ((fact.filter (fun r => r.is_revenue_eligible == true)).map
            (fun r => r.sales_amount))) ∧
    (∀ (df : List FactRaw)
        (dateKeys productKeys customerKeys employeeKeys regionKeys : List Int)
        (dim_date : List DateRow) (defs : List KpiDef),
        (dim_date.map DateRow.date_key).Nodup →
        kpi_total_revenue (mkKPICalculator
            (transform_fact_sales df dateKeys productKeys customerKeys employeeKeys regionKeys)
            dim_date defs) =
          sumO (((transform_fact_sales df dateKeys productKeys customerKeys
              employeeKeys regionKeys).filter
            (fun r => r.order_status != "Cancelled")).map (fun r => r.sales_amount))) :=
  ⟨transform_flag_eq, mk_eligible_flagged, kpi_total_revenue_eq,
   kpi_total_revenue_transform⟩

/-- A sample `dim_date` row. -/
def sampleDateRow : DateRow :=
  { date_key := 1, year := 2025, month_number := 1,
    month_name := "January", quarter := "Q1" }

/-- Witness for C4: on a one-row raw fact table with a matching,
duplicate-free `dim_date`, total revenue is the non-cancelled sum. -/
theorem revenue_excludes_cancelled_witness :
    kpi_total_revenue (mkKPICalculator
        (transform_fact_sales [sampleFactRaw] [1] [1] [1] [1] [1]) [sampleDateRow] []) =
      sumO (((transform_fact_sales [sampleFactRaw] [1] [1] [1] [1] [1]).filter
        (fun r => r.order_status != "Cancelled")).map (fun r => r.sales_amount)) :=
  revenue_excludes_cancelled.2.2.2 [sampleFactRaw] [1] [1] [1] [1] [1]
    [sampleDateRow] [] (by decide)

/-!
=== One result per catalog entry known to the dispatcher (claim C7)
-/

lemma calculate_all_ids (c : KPICalculator) :
    (calculate_all c).map (fun r => r.kpi_id) =
      (c.kpi_defs.filter (fun d => (KPI_MAP d.id).isSome)).map (fun d => d.id) := by
  unfold calculate_all
  induction c.kpi_defs with
  | nil => rfl
  | cons d tl ih =>
    rw [List.filterMap_cons, List.filter_cons]
    cases hm : KPI_MAP d.id with
    | none => simpa [kpiRecordOf, hm] using ih
    | some fn => simpa [kpiRecordOf, hm] using ih

lemma calculate_all_fields (c : KPICalculator) :
    ∀ rec ∈ calculate_all c,
      ∃ d ∈ c.kpi_defs, ∃ fn, KPI_MAP d.id = some fn ∧
        rec.kpi_id = d.id ∧ rec.value = round4 (fn c) ∧
        rec.rag_status = rag_status (fn c) d.thresholds d.trend_direction := by
  intro rec hrec
  obtain ⟨d, hd, hrd⟩ := List.mem_filterMap.mp hrec
  refine ⟨d, hd, ?_⟩
  unfold kpiRecordOf at hrd
  cases hm : KPI_MAP d.id with
  | none =>
    rw [hm] at hrd
    exact absurd hrd (by simp)
  | some fn =>
    rw [hm] at hrd
    simp only [Option.some.injEq] at hrd
    subst hrd
    exact ⟨fn, rfl, rfl, rfl, rfl⟩

lemma calculate_all_length_ten (c : KPICalculator)
    (h10 : c.kpi_defs.map (fun d => d.id) =
      ["KPI-001", "KPI-002", "KPI-003", "KPI-004", "KPI-005",
       "KPI-006", "KPI-007", "KPI-008", "KPI-009", "KPI-010"]) :
    (calculate_all c).length = 10 := by
  have hall : ∀ d ∈ c.kpi_defs, ((KPI_MAP d.id).isSome : Prop) := by
    intro d hd
    have hmem : d.id ∈ c.kpi_defs.map (fun d => d.id) := List.mem_map_of_mem _ hd
    rw [h10] at hmem
    simp only [List.mem_cons, List.not_mem_nil, or_false] at hmem
    rcases hmem with h | h | h | h | h | h | h | h | h | h <;> rw [h] <;> decide
  have hfilter : c.kpi_defs.filter (fun d => (KPI_MAP d.id).isSome) = c.kpi_defs :=
    List.filter_eq_self.mpr (fun d hd => by simpa using hall d hd)
  have hlen := congrArg List.length (calculate_all_ids c)
  rw [List.length_map, List.length_map, hfilter] at hlen
  have hten : c.kpi_defs.length = 10 := by
    have := congrArg List.length h10
    rw [List.length_map] at this
    simpa using this
  rw [hlen, hten]

/-- Claim C7: `calculate_all` produces exactly one record per catalog entry
whose id the dispatcher knows, in catalog order, and silently skips the
rest; each record carries the value rounded to four decimals and the RAG
status of the unrounded value; a catalog whose ids are exactly KPI-001
through KPI-010 yields exactly ten results. -/
theorem calculate_all_per_definition :
    (∀ c : KPICalculator,
        (calculate_all c).map (fun r => r.kpi_id) =
          (c.kpi_defs.filter (fun d => (KPI_MAP d.id).isSome)).map (fun d => d.id)) ∧
    (∀ c : KPICalculator, ∀ rec ∈ calculate_all c,
        ∃ d ∈ c.kpi_defs, ∃ fn, KPI_MAP d.id = some fn ∧
          rec.kpi_id = d.id ∧ rec.value = round4 (fn c) ∧
          rec.rag_status = rag_status (fn c) d.thresholds d.trend_direction) ∧
    (∀ c : KPICalculator,
        c.kpi_defs.map (fun d => d.id) =
          ["KPI-001", "KPI-002", "KPI-003", "KPI-004", "KPI-005",
           "KPI-006", "KPI-007", "KPI-008", "KPI-009", "KPI-010"] →
        (calculate_all c).length = 10) :=
  ⟨calculate_all_ids, calculate_all_fields, calculate_all_length_ten⟩

/-- A ten-entry catalog with the ids KPI-001 through KPI-010. -/
def sampleKpiDefs : List KpiDef :=
  ["KPI-001", "KPI-002", "KPI-003", "KPI-004", "KPI-005",
   "KPI-006", "KPI-007", "KPI-008", "KPI-009", "KPI-010"].map
    (fun i => { id := i, name := i, category := "", unit := "",
                formula := "", thresholds := none, trend_direction := "" })

/-- Witness for C7: the ten-id catalog yields exactly ten results. -/
theorem calculate_all_per_definition_witness :
    (calculate_all (mkKPICalculator [] [] sampleKpiDefs)).length = 10 :=
  calculate_all_per_definition.2.2 (mkKPICalculator [] [] sampleKpiDefs) rfl

/-!
=== Division guards of the ratio KPIs (claim C8)
-/

/-- Claim C8: Every ratio-style KPI method is division-guarded: each of the
guarded methods returns 0 when its denominator is not positive, and the
month-over-month growth returns 0 with fewer than two monthly groups or a
non-positive previous month. -/
theorem kpi_division_guards (c : KPICalculator) :
    (eligRevenue c ≤ 0 → kpi_gross_margin_pct c = 0) ∧
    (eligOrderCount c = 0 → kpi_avg_order_value c = 0) ∧
    (eligTargetTotal c ≤ 0 → kpi_target_attainment c = 0) ∧
    (eligEmployeeCount c = 0 → kpi_revenue_per_employee c = 0) ∧
    ((sortLe ratGe (productSums c)).sum ≤ 0 → kpi_top10_revenue_share c = 0) ∧
    ((monthlySeries c).length < 2 → kpi_revenue_growth_mom c = 0) ∧
    (∀ cur prev rest, (monthlySeries c).reverse = cur :: prev :: rest →
        prev ≤ 0 → kpi_revenue_growth_mom c = 0) := by
  refine ⟨?_, ?_, ?_, ?_, ?_, ?_, ?_⟩
  · intro h
    simp only [kpi_gross_margin_pct]
    rw [if_neg (not_lt.mpr h)]
  · intro h
    simp only [kpi_avg_order_value]
    rw [if_neg (by omega)]
  · intro h
    simp only [kpi_target_attainment]
    rw [if_neg (not_lt.mpr h)]
  · intro h
    simp only [kpi_revenue_per_employee]
    rw [if_neg (by omega)]
  · intro h
    simp only [kpi_top10_revenue_share]
    rw [if_neg (not_lt.mpr h)]
  · intro h
    unfold kpi_revenue_growth_mom
    cases hrev : (monthlySeries c).reverse with
    | nil => rfl
    | cons a tl =>
      cases tl with
      | nil => rfl
      | cons b tl2 =>
        exfalso
        have hlen := congrArg List.length hrev
        rw [List.length_reverse] at hlen
        simp [List.length_cons] at hlen
        omega
  · intro cur prev rest hrev hle
    unfold kpi_revenue_growth_mom
    rw [hrev]
    exact if_neg (not_lt.mpr hle)

/-- A revenue-eligible fact row in month (2025, 1) with zero revenue. -/
def growthFact1 : FactRow :=
  { date_key := 1, product_key := 1, customer_key := 1, employee_key := 1,
    region_key := 1, order_id := "A", order_status := "Delivered",
    quantity := some 1, unit_price := some 1, discount_pct := some 0,
    sales_amount := some 0, cogs := some 0, gross_margin := some 0,
    target_amount := some 1, is_revenue_eligible := true }

/-- A revenue-eligible fact row in month (2025, 2) with revenue 5. -/
def growthFact2 : FactRow :=
  { date_key := 2, product_key := 1, customer_key := 1, employee_key := 1,
    region_key := 1, order_id := "B", order_status := "Delivered",
    quantity := some 1, unit_price := some 5, discount_pct := some 0,
    sales_amount := some 5, cogs := some 1, gross_margin := some 4,
    target_amount := some 1, is_revenue_eligible := true }

/-- A second sample `dim_date` row, month (2025, 2). -/
def sampleDateRow2 : DateRow :=
  { date_key := 2, year := 2025, month_number := 2,
    month_name := "February", quarter := "Q1" }

/-- Two monthly groups whose earlier month has zero revenue. -/
def growthCalc : KPICalculator :=
  mkKPICalculator [growthFact1, growthFact2] [sampleDateRow, sampleDateRow2] []

/-- Witness for C8: on the empty eligible set every guarded KPI returns
0, and a two-month series with non-positive previous month makes the
growth KPI return 0. -/
theorem kpi_division_guards_witness :
    kpi_gross_margin_pct (mkKPICalculator [] [] []) = 0 ∧
    kpi_avg_order_value (mkKPICalculator [] [] []) = 0 ∧
    kpi_target_attainment (mkKPICalculator [] [] []) = 0 ∧
    kpi_revenue_per_employee (mkKPICalculator [] [] []) = 0 ∧
    kpi_top10_revenue_share (mkKPICalculator [] [] []) = 0 ∧
    kpi_revenue_growth_mom (mkKPICalculator [] [] []) = 0 ∧
    kpi_revenue_growth_mom growthCalc = 0 :=
  ⟨(kpi_division_guards (mkKPICalculator [] [] [])).1 (by decide),
   (kpi_division_guards (mkKPICalculator [] [] [])).2.1 (by decide),
   (kpi_division_guards (mkKPICalculator [] [] [])).2.2.1 (by decide),
   (kpi_division_guards (mkKPICalculator [] [] [])).2.2.2.1 (by decide),
   (kpi_division_guards (mkKPICalculator [] [] [])).2.2.2.2.1 (by decide),
   (kpi_division_guards (mkKPICalculator [] [] [])).2.2.2.2.2.1 (by decide),
   (kpi_division_guards growthCalc).2.2.2.2.2.2 5 0 [] (by
     simp [growthCalc, mkKPICalculator, mergeDate, mergeBlock, growthFact1,
       growthFact2, sampleDateRow, sampleDateRow2, monthlySeries, monthKeys,
       groupSales, sortLe, insertLe, lexLe, sumO]) (by decide)⟩
